import Mathlib

/-!
Verification of the EnviroSight dispersion predictor.

This file shallowly embeds the prediction core of the repository
(`clientSidePrediction`, `retryWithBackoff` and `runPrediction` from the
API/data layer) into Lean and proves the specification's testable
properties about it.

Modelling conventions:
* JavaScript `number` is modelled as `ℝ`; `Math.cos`, `Math.sin` and
  `Math.PI` as `Real.cos`, `Real.sin` and `Real.pi`.
* ISO timestamp strings produced by `new Date().toISOString()` are
  modelled as an explicit `now : String` argument (the clock reading).
* `async`/`Promise` code is modelled as plain values: a remote call is a
  function from the attempt index to `Except String α` (`Except.error`
  stands for a rejected promise, which in the source includes thrown
  errors for non-OK HTTP statuses).  Timed backoff delays are not
  modelled; they do not affect values.
* `console.log`/`console.error` calls are side-effect free and dropped.
-/

namespace EnviroSight

/-- Geographic location `{lat, lng}` as used throughout the source. -/
structure Location where
  lat : ℝ
  lng : ℝ

/-- `WeatherData` from `types.ts`: wind speed (mph), wind direction
(meteorological degrees), temperature, humidity, timestamp. -/
structure WeatherData where
  windSpeed : ℝ
  windDirection : ℝ
  temperature : ℝ
  humidity : ℝ
  timestamp : String

/-- The `properties` field of `PredictionResult` from `types.ts`
(the optional `chemical` payload is omitted: the client-side path never
sets it). -/
structure PredictionProperties where
  hazardType : String
  windSpeed : ℝ
  windDirection : ℝ
  timestamp : String

/-- `PredictionResult` from `types.ts`: center, polygon as a list of
`[lat, lng]` pairs, and properties. -/
structure PredictionResult where
  center : Location
  polygon : List (ℝ × ℝ)
  properties : PredictionProperties

/-- `windDirRadians` in `clientSidePrediction`:
`((270 - weather.windDirection) * Math.PI) / 180`. -/
noncomputable def windDirRadiansFor (windDirection : ℝ) : ℝ :=
  (270 - windDirection) * Real.pi / 180

/-- The major axis used by `clientSidePrediction`:
`let majorAxis = weather.windSpeed * 0.0005`, then
`if (hazardType === "gas") majorAxis *= 2`. -/
noncomputable def majorAxisFor (hazardType : String) (windSpeed : ℝ) : ℝ :=
  let majorAxis := windSpeed * 0.0005
  if hazardType = "gas" then majorAxis * 2 else majorAxis

/-- The minor axis used by `clientSidePrediction`:
`const minorAxis = majorAxis * 0.5`, computed from the base
`weather.windSpeed * 0.0005` BEFORE the gas adjustment mutates
`majorAxis`. -/
noncomputable def minorAxisFor (windSpeed : ℝ) : ℝ :=
  windSpeed * 0.0005 * 0.5

/-- The latitude-convergence divisor used for the longitude offset:
`Math.cos((location.lat * Math.PI) / 180)`. -/
noncomputable def latCorrection (location : Location) : ℝ :=
  Real.cos (location.lat * Real.pi / 180)

/-- One iteration of the point-generation loop of `clientSidePrediction`
(`for (let i = 0; i < numPoints; i++)` with `numPoints = 24`). -/
noncomputable def samplePoint (location : Location) (weather : WeatherData)
    (hazardType : String) (i : ℕ) : ℝ × ℝ :=
  let windDirRadians := windDirRadiansFor weather.windDirection
  let angle := (i : ℝ) / 24 * 2 * Real.pi
  let x := majorAxisFor hazardType weather.windSpeed * Real.cos angle
  let y := minorAxisFor weather.windSpeed * Real.sin angle
  let rotatedX := x * Real.cos windDirRadians - y * Real.sin windDirRadians
  let rotatedY := x * Real.sin windDirRadians + y * Real.cos windDirRadians
  let latOffset := rotatedY
  let lngOffset := rotatedX / latCorrection location
  (location.lat + latOffset, location.lng + lngOffset)

/-- `if (points.length > 0) points.push([...points[0]])`: close the ring
by appending a copy of the first point when the list is nonempty. -/
def closeRing (points : List (ℝ × ℝ)) : List (ℝ × ℝ) :=
  match points with
  | [] => []
  | p :: rest => p :: (rest ++ [p])

/-- `clientSidePrediction(location, weather, hazardType, chemical_id)`
from the API layer.  `chemicalId` is accepted but unused, exactly as in
the source (it is only logged there); `now` is the clock reading used
for `properties.timestamp`. -/
noncomputable def clientSidePrediction (location : Location)
    (weather : WeatherData) (hazardType : String) (chemicalId : ℤ)
    (now : String) : PredictionResult :=
  { center := location
    polygon := closeRing
      ((List.range 24).map (samplePoint location weather hazardType))
    properties :=
      { hazardType := hazardType
        windSpeed := weather.windSpeed
        windDirection := weather.windDirection
        timestamp := now } }

/-- The loop of `retryWithBackoff`: try `fn`; on success return; on
failure retry while retries remain, rethrowing the last error once
`retries >= maxRetries`.  `fuel` is the number of retries still
allowed, `attempt` the index of the current call. -/
def retryLoop {α : Type} (fn : ℕ → Except String α) (attempt : ℕ) :
    ℕ → Except String α
  | 0 => fn attempt
  | fuel + 1 =>
    match fn attempt with
    | Except.ok a => Except.ok a
    | Except.error _ => retryLoop fn (attempt + 1) fuel

/-- `retryWithBackoff(fn, maxRetries = 3, initialDelay = 500)`.  The
timed delays do not affect the returned value and are not modelled. -/
def retryWithBackoff {α : Type} (fn : ℕ → Except String α)
    (maxRetries : ℕ) : Except String α :=
  retryLoop fn 0 maxRetries

/-- Number of times `retryLoop` invokes `fn` (observation function over
the same recursion structure as `retryLoop`). -/
def retryLoopCalls {α : Type} (fn : ℕ → Except String α) (attempt : ℕ) :
    ℕ → ℕ
  | 0 => 1
  | fuel + 1 =>
    match fn attempt with
    | Except.ok _ => 1
    | Except.error _ => retryLoopCalls fn (attempt + 1) fuel + 1

/-- Number of times `retryWithBackoff fn maxRetries` invokes `fn`. -/
def retryWithBackoffCalls {α : Type} (fn : ℕ → Except String α)
    (maxRetries : ℕ) : ℕ :=
  retryLoopCalls fn 0 maxRetries

/-- `runPrediction`: attempt the remote dispersion model under
`retryWithBackoff` with the default `maxRetries = 3`; on any error fall
back to `clientSidePrediction`.  `remote n` is the outcome of the n-th
attempt of the remote call (already converted to the internal format, as
done inside the `retryWithBackoff` callback in the source). -/
noncomputable def runPrediction
    (remote : ℕ → Except String PredictionResult) (location : Location)
    (weather : WeatherData) (hazardType : String) (chemicalId : ℤ)
    (now : String) : PredictionResult :=
  match retryWithBackoff remote 3 with
  | Except.ok r => r
  | Except.error _ =>
      clientSidePrediction location weather hazardType chemicalId now

/-- The error thrown by the `runPrediction` callback on an HTTP 404
response ("not deployed" hint). -/
def remote404 : ℕ → Except String PredictionResult := fun _ =>
  Except.error "Endpoint not found: /run-dispersion-prediction. Check deployment."

/-! Helper lemmas about the generated polygon. -/

lemma range24_map_eq {α : Type} (f : ℕ → α) :
    (List.range 24).map f = f 0 :: (List.range 23).map (fun j => f (j + 1)) := by
  rw [show (24 : ℕ) = 23 + 1 from rfl, List.range_succ_eq_map]
  simp [List.map_map, Function.comp_def]

lemma polygon_eq (location : Location) (weather : WeatherData)
    (hazardType : String) (chemicalId : ℤ) (now : String) :
    (clientSidePrediction location weather hazardType chemicalId now).polygon
      = samplePoint location weather hazardType 0 ::
        (((List.range 23).map
            (fun j => samplePoint location weather hazardType (j + 1)))
          ++ [samplePoint location weather hazardType 0]) := by
  show closeRing ((List.range 24).map (samplePoint location weather hazardType)) = _
  rw [range24_map_eq]
  rfl

lemma polygon_length (location : Location) (weather : WeatherData)
    (hazardType : String) (chemicalId : ℤ) (now : String) :
    (clientSidePrediction location weather hazardType chemicalId now).polygon.length
      = 25 := by
  rw [polygon_eq]
  simp

lemma polygon_first (location : Location) (weather : WeatherData)
    (hazardType : String) (chemicalId : ℤ) (now : String) :
    (clientSidePrediction location weather hazardType chemicalId now).polygon[0]?
      = some (samplePoint location weather hazardType 0) := by
  rw [polygon_eq]
  rfl

lemma polygon_last (location : Location) (weather : WeatherData)
    (hazardType : String) (chemicalId : ℤ) (now : String) :
    (clientSidePrediction location weather hazardType chemicalId now).polygon[24]?
      = some (samplePoint location weather hazardType 0) := by
  rw [polygon_eq, List.getElem?_cons_succ]
  have h23 : ((List.range 23).map
      (fun j => samplePoint location weather hazardType (j + 1))).length = 23 := by
    simp
  rw [show (23 : ℕ) = ((List.range 23).map
      (fun j => samplePoint location weather hazardType (j + 1))).length from h23.symm]
  exact List.getElem?_concat_length _ _

/-- C1: for every center, wind observation and hazard class, the local
estimator `clientSidePrediction` returns a polygon of exactly 25 points
whose point 0 equals its point 24 (a closed ring). -/
theorem c1_polygon_closed_25 (location : Location) (weather : WeatherData)
    (hazardType : String) (chemicalId : ℤ) (now : String) :
    (clientSidePrediction location weather hazardType chemicalId now).polygon.length = 25
    ∧ (clientSidePrediction location weather hazardType chemicalId now).polygon[0]?
        = (clientSidePrediction location weather hazardType chemicalId now).polygon[24]? := by
  refine ⟨polygon_length location weather hazardType chemicalId now, ?_⟩
  rw [polygon_first, polygon_last]

/-- C3: with wind speed held fixed, the major axis computed for hazard
type "gas" is exactly twice the one computed for any other hazard type
(in particular "liquid"), and every non-gas hazard type uses the
unscaled `windSpeed * 0.0005`. -/
theorem c3_gas_doubles_major_axis (windSpeed : ℝ) (hazardType : String)
    (hne : hazardType ≠ "gas") :
    majorAxisFor "gas" windSpeed = 2 * majorAxisFor hazardType windSpeed
    ∧ majorAxisFor hazardType windSpeed = windSpeed * 0.0005 := by
  simp [majorAxisFor, hne]
  ring

theorem c3_gas_doubles_major_axis_witness :
    ("liquid" : String) ≠ "gas"
    ∧ (majorAxisFor "gas" 20 = 2 * majorAxisFor "liquid" 20
        ∧ majorAxisFor "liquid" 20 = 20 * 0.0005) :=
  ⟨by decide, c3_gas_doubles_major_axis 20 "liquid" (by decide)⟩

/-- C4 counterexample: for hazard type "gas" at wind speed 20, the minor
axis used to generate the polygon is NOT half of the major axis used to
generate it (it is a quarter of it: the halving is applied to the base
major axis before the gas doubling). -/
theorem c4_counterexample :
    ¬ (minorAxisFor 20 = majorAxisFor "gas" 20 * 0.5) := by
  simp [minorAxisFor, majorAxisFor]
  norm_num

/-- C4 (amended): the minor axis equals half of the major axis for every
non-gas hazard class; for hazard class "gas" it equals a quarter of the
(doubled) major axis, since the halving is applied to the base value
before the gas adjustment. -/
theorem c4_minor_axis_ratio (windSpeed : ℝ) (hazardType : String)
    (hne : hazardType ≠ "gas") :
    minorAxisFor windSpeed = majorAxisFor hazardType windSpeed * 0.5
    ∧ minorAxisFor windSpeed = majorAxisFor "gas" windSpeed * 0.25 := by
  simp [minorAxisFor, majorAxisFor, hne]
  ring

theorem c4_minor_axis_ratio_witness :
    ("liquid" : String) ≠ "gas"
    ∧ (minorAxisFor 20 = majorAxisFor "liquid" 20 * 0.5
        ∧ minorAxisFor 20 = majorAxisFor "gas" 20 * 0.25) :=
  ⟨by decide, c4_minor_axis_ratio 20 "liquid" (by decide)⟩

/-- C8: for a fixed hazard class, the major axis is strictly increasing
in the wind speed. -/
theorem c8_major_axis_strict_mono (hazardType : String) (s1 s2 : ℝ)
    (hlt : s1 < s2) :
    majorAxisFor hazardType s1 < majorAxisFor hazardType s2 := by
  simp only [majorAxisFor]
  split
  · nlinarith
  · nlinarith

theorem c8_major_axis_strict_mono_witness :
    (1 : ℝ) < 2 ∧ majorAxisFor "gas" 1 < majorAxisFor "gas" 2 :=
  ⟨by norm_num, c8_major_axis_strict_mono "gas" 1 2 (by norm_num)⟩

/-- C9: the local estimator is deterministic apart from the timestamp:
two runs with identical center, wind and hazard-class inputs but
different clock readings produce identical `polygon` and `center`
fields. -/
theorem c9_deterministic (location : Location) (weather : WeatherData)
    (hazardType : String) (chemicalId : ℤ) (t1 t2 : String) :
    (clientSidePrediction location weather hazardType chemicalId t1).polygon
      = (clientSidePrediction location weather hazardType chemicalId t2).polygon
    ∧ (clientSidePrediction location weather hazardType chemicalId t1).center
      = (clientSidePrediction location weather hazardType chemicalId t2).center :=
  ⟨rfl, rfl⟩

/-! Helper lemmas about the retry loop and the zero-wind case. -/

lemma retryLoop_error {α : Type} (fn : ℕ → Except String α)
    (hfail : ∀ n, ∃ e, fn n = Except.error e) :
    ∀ fuel attempt, ∃ e, retryLoop fn attempt fuel = Except.error e := by
  intro fuel
  induction fuel with
  | zero => intro attempt; exact hfail attempt
  | succ fuel ih =>
    intro attempt
    obtain ⟨e, he⟩ := hfail attempt
    obtain ⟨e2, he2⟩ := ih (attempt + 1)
    exact ⟨e2, by simp [retryLoop, he, he2]⟩

lemma retryLoopCalls_error {α : Type} (fn : ℕ → Except String α)
    (hfail : ∀ n, ∃ e, fn n = Except.error e) :
    ∀ fuel attempt, retryLoopCalls fn attempt fuel = fuel + 1 := by
  intro fuel
  induction fuel with
  | zero => intro attempt; rfl
  | succ fuel ih =>
    intro attempt
    obtain ⟨e, he⟩ := hfail attempt
    simp [retryLoopCalls, he, ih (attempt + 1)]

lemma samplePoint_zero_speed (location : Location) (weather : WeatherData)
    (hazardType : String) (i : ℕ) (hs : weather.windSpeed = 0) :
    samplePoint location weather hazardType i = (location.lat, location.lng) := by
  simp [samplePoint, majorAxisFor, minorAxisFor, hs]

/-- C2: when the remote dispersion model fails on every attempt,
`runPrediction` still returns a result (it never escalates the failure):
the result is exactly the client-side fallback, and its polygon has
exactly 25 points. -/
theorem c2_fallback_resolves (remote : ℕ → Except String PredictionResult)
    (location : Location) (weather : WeatherData) (hazardType : String)
    (chemicalId : ℤ) (now : String)
    (hfail : ∀ n, ∃ e, remote n = Except.error e) :
    runPrediction remote location weather hazardType chemicalId now
      = clientSidePrediction location weather hazardType chemicalId now
    ∧ (runPrediction remote location weather hazardType chemicalId now).polygon.length
        = 25 := by
  obtain ⟨e, he⟩ := retryLoop_error remote hfail 3 0
  have hrun : runPrediction remote location weather hazardType chemicalId now
      = clientSidePrediction location weather hazardType chemicalId now := by
    simp [runPrediction, retryWithBackoff, he]
  exact ⟨hrun, by rw [hrun, polygon_length]⟩

theorem c2_fallback_resolves_witness :
    (∀ n : ℕ, ∃ e, (fun _ : ℕ =>
        (Except.error "network failure" : Except String PredictionResult)) n
      = Except.error e)
    ∧ (runPrediction (fun _ => Except.error "network failure")
        ⟨40, -90⟩ ⟨12, 225, 72, 45, "t0"⟩ "gas" 1 "t1").polygon.length = 25 := by
  have hfail : ∀ n : ℕ, ∃ e, (fun _ : ℕ =>
      (Except.error "network failure" : Except String PredictionResult)) n
        = Except.error e := fun _ => ⟨"network failure", rfl⟩
  exact ⟨hfail,
    (c2_fallback_resolves (fun _ => Except.error "network failure")
      ⟨40, -90⟩ ⟨12, 225, 72, 45, "t0"⟩ "gas" 1 "t1" hfail).2⟩

/-- C5 counterexample: with a remote endpoint that answers 404 on every
attempt (modelled by the distinguishing error the source throws on a
404 response), the remote call is invoked 4 times — not at most once —
before the fallback is used: `retryWithBackoff` retries the 404 error
like any other error. -/
theorem c5_counterexample :
    retryWithBackoffCalls remote404 3 = 4
    ∧ ¬ (retryWithBackoffCalls remote404 3 ≤ 1) := by
  have h4 : retryWithBackoffCalls remote404 3 = 4 := by
    have hfail : ∀ n, ∃ e, remote404 n = Except.error e :=
      fun _ => ⟨_, rfl⟩
    exact retryLoopCalls_error remote404 hfail 3 0
  exact ⟨h4, by rw [h4]; norm_num⟩

/-- C5 (amended): a 404 response does produce the distinguishing
"not deployed" error and does trigger the client-side fallback, but it
is NOT treated specially by the retry loop: the remote call is invoked
`maxRetries + 1 = 4` times (not at most once) before the fallback is
used. -/
theorem c5_404_retried_then_fallback (location : Location)
    (weather : WeatherData) (hazardType : String) (chemicalId : ℤ)
    (now : String) :
    retryWithBackoffCalls remote404 3 = 4
    ∧ runPrediction remote404 location weather hazardType chemicalId now
        = clientSidePrediction location weather hazardType chemicalId now := by
  have hfail : ∀ n, ∃ e, remote404 n = Except.error e := fun _ => ⟨_, rfl⟩
  obtain ⟨e, he⟩ := retryLoop_error remote404 hfail 3 0
  exact ⟨retryLoopCalls_error remote404 hfail 3 0,
    by simp [runPrediction, retryWithBackoff, he]⟩

/-- C7: with zero wind speed both axes are 0 and every one of the 25
polygon points equals the center — a degenerate but well-defined
polygon. -/
theorem c7_zero_wind_degenerate (location : Location)
    (weather : WeatherData) (hazardType : String) (chemicalId : ℤ)
    (now : String) (h1 : -90 < location.lat) (h2 : location.lat < 90)
    (hs : weather.windSpeed = 0) :
    majorAxisFor hazardType weather.windSpeed = 0
    ∧ minorAxisFor weather.windSpeed = 0
    ∧ (clientSidePrediction location weather hazardType chemicalId now).polygon.length
        = 25
    ∧ ∀ p ∈ (clientSidePrediction location weather hazardType chemicalId now).polygon,
        p = (location.lat, location.lng) := by
  refine ⟨by simp [majorAxisFor, hs], by simp [minorAxisFor, hs],
    polygon_length location weather hazardType chemicalId now, ?_⟩
  intro p hp
  rw [polygon_eq] at hp
  rcases List.mem_cons.mp hp with h | hp
  · rw [h, samplePoint_zero_speed _ _ _ _ hs]
  · rcases List.mem_append.mp hp with hp | hp
    · obtain ⟨j, _, rfl⟩ := List.mem_map.mp hp
      exact samplePoint_zero_speed _ _ _ _ hs
    · rw [List.mem_singleton.mp hp, samplePoint_zero_speed _ _ _ _ hs]

theorem c7_zero_wind_degenerate_witness :
    (-90 : ℝ) < 40 ∧ (40 : ℝ) < 90
    ∧ (∀ p ∈ (clientSidePrediction ⟨40, -90⟩ ⟨0, 225, 72, 45, "t0"⟩
          "gas" 1 "t1").polygon, p = ((40 : ℝ), (-90 : ℝ))) := by
  refine ⟨by norm_num, by norm_num, ?_⟩
  exact (c7_zero_wind_degenerate ⟨40, -90⟩ ⟨0, 225, 72, 45, "t0"⟩ "gas" 1 "t1"
    (by norm_num) (by norm_num) rfl).2.2.2

/-- C10: for a center latitude strictly between -90 and 90 degrees, the
latitude-convergence divisor `cos(lat * pi / 180)` used for every
longitude offset in `clientSidePrediction` is strictly positive, hence
nonzero: the division is well-defined at every perimeter sample. -/
theorem c10_lat_correction_nonzero (location : Location)
    (h1 : -90 < location.lat) (h2 : location.lat < 90) :
    0 < latCorrection location ∧ latCorrection location ≠ 0 := by
  have hpi := Real.pi_pos
  have hpos : 0 < latCorrection location := by
    apply Real.cos_pos_of_mem_Ioo
    constructor
    · have hprod : 0 < (location.lat + 90) * Real.pi := by
        apply mul_pos (by linarith) hpi
      show -(Real.pi / 2) < location.lat * Real.pi / 180
      nlinarith
    · have hprod : 0 < (90 - location.lat) * Real.pi := by
        apply mul_pos (by linarith) hpi
      show location.lat * Real.pi / 180 < Real.pi / 2
      nlinarith
  exact ⟨hpos, ne_of_gt hpos⟩

theorem c10_lat_correction_nonzero_witness :
    (-90 : ℝ) < 40 ∧ (40 : ℝ) < 90
    ∧ latCorrection ⟨40, -90⟩ ≠ 0 := by
  refine ⟨by norm_num, by norm_num, ?_⟩
  exact (c10_lat_correction_nonzero ⟨40, -90⟩ (by norm_num) (by norm_num)).2

/-- C6: concrete scenario center (40, -90), wind speed 20 from 180°,
hazard class gas: majorAxis = 0.02, minorAxis = 0.005, heading = pi/2,
and the first polygon sample is exactly (40.02, -90). -/
theorem c6_example_scenario (chemicalId : ℤ) (ts now : String) :
    majorAxisFor "gas" 20 = 0.02
    ∧ minorAxisFor 20 = 0.005
    ∧ windDirRadiansFor 180 = Real.pi / 2
    ∧ samplePoint ⟨40, -90⟩ ⟨20, 180, 70, 50, ts⟩ "gas" 0 = (40.02, -90)
    ∧ (clientSidePrediction ⟨40, -90⟩ ⟨20, 180, 70, 50, ts⟩ "gas"
        chemicalId now).polygon[0]? = some ((40.02 : ℝ), (-90 : ℝ)) := by
  have hw : windDirRadiansFor 180 = Real.pi / 2 := by
    show (270 - (180 : ℝ)) * Real.pi / 180 = Real.pi / 2
    ring
  have hsp : samplePoint ⟨40, -90⟩ ⟨20, 180, 70, 50, ts⟩ "gas" 0
      = (40.02, -90) := by
    simp [samplePoint, hw, Real.cos_pi_div_two, Real.sin_pi_div_two,
      majorAxisFor, minorAxisFor]
    norm_num
  refine ⟨by norm_num [majorAxisFor], by norm_num [minorAxisFor], hw, hsp, ?_⟩
  rw [polygon_first, hsp]

end EnviroSight
